import Mathlib

/-!
Verification development for the US county GDP ETL pipeline
(`USCountyGDPDatabase(2004-2022).py` and `USCountyGDPcsvCode2022.py`).

The pipeline fetches county-level GDP rows from the BEA API, normalizes
them into typed records, aggregates state summaries, and loads everything
into an SQLite store with derived views.  This file gives a shallow
embedding of those operations: numeric values become `ℚ` (SQLite REAL,
abstracted exactly), nullable columns become `Option`, the per-year raw
table becomes `List RawRow`, and the SQLite store becomes an explicit
`Store` record threaded through the load steps.
-/

namespace CountyGDP

/-- One raw BEA API data row: the fields of `results["Data"]` used by the
pipeline (`GeoFips`, `GeoName`, `DataValue`, `TimePeriod`). -/
structure RawRow where
  GeoFips : String
  GeoName : String
  DataValue : String
  TimePeriod : String
deriving DecidableEq, Repr

/-- A normalized county record: the five columns the pipeline keeps
(`fips_code`, `county_name`, `state_code`, `gdp_billions`, `year`).
`county_name`/`state_code` are null when the `GeoName` regex does not
match; `gdp_billions` is null when `DataValue` is unparsable. -/
structure CountyRecord where
  fips_code : String
  county_name : Option String
  state_code : Option String
  gdp_billions : Option ℚ
  year : Int
deriving DecidableEq, Repr

/-- Digit accumulation used by the numeric parser: every character must be
a decimal digit. -/
def digitsToNat (cs : List Char) : Option Nat :=
  cs.foldlM (fun a c => if c.isDigit then some (a * 10 + (c.toNat - 48)) else none) 0

/-- Numeric parsing in the style of `pd.to_numeric` on a plain decimal
string: optional sign, integer digits, optional fractional digits after a
single dot.  (Exponent and whitespace forms do not occur in BEA data and
are not modelled; an unparsable string yields `none`, which the source
maps to NaN under `errors='coerce'` and to an exception under the default
`errors='raise'`.) -/
def parseDecimal (s : String) : Option ℚ :=
  let cs := s.data
  let signBody : ℚ × List Char :=
    match cs with
    | '-' :: t => (-1, t)
    | '+' :: t => (1, t)
    | _ => (1, cs)
  let ip := signBody.2.takeWhile (fun c => c ≠ '.')
  match signBody.2.dropWhile (fun c => c ≠ '.') with
  | [] =>
    if ip.isEmpty then none
    else (digitsToNat ip).map (fun n => signBody.1 * n)
  | _ :: fp =>
    if fp.any (fun c => c = '.') then none
    else if ip.isEmpty && fp.isEmpty then none
    else
      match digitsToNat ip, digitsToNat fp with
      | some a, some b => some (signBody.1 * ((a : ℚ) + (b : ℚ) / (10 ^ fp.length)))
      | _, _ => none

/-- The `.str.replace(',', '')` step: remove every comma. -/
def stripCommas (s : String) : String :=
  String.mk (s.data.filter (fun c => c ≠ ','))

/-- Word character as in the regex class `\w` (ASCII view, which covers
the two-letter state codes the pattern targets). -/
def isWordChar (c : Char) : Bool :=
  c.isAlphanum || c = '_'

/-- The `GeoName` decomposition `str.extract(r'(.*), (\w{2})$')`: the
pattern forces `", "` followed by exactly two word characters at the end
of the string, the greedy `(.*)` capturing everything before.  Returns
`(county_name, state_code)` on a match, `none` otherwise.  (Labels are
single-line in BEA data; newline edge cases of `re.search` are not
modelled.) -/
def extractGeo (s : String) : Option (String × String) :=
  match s.data.reverse with
  | c1 :: c2 :: ' ' :: ',' :: rest =>
    if isWordChar c1 && isWordChar c2 then
      some (String.mk rest.reverse, String.mk [c2, c1])
    else none
  | _ => none

/-- Year parsing `pd.to_numeric(df['TimePeriod'])` with the default
`errors='raise'`: BEA time periods are (signed) integer strings, parsed
to int64; an unparsable entry raises.  (Fractional time-period strings do
not occur for this table and are not modelled.) -/
def parseTimePeriod (s : String) : Option Int :=
  let cs := s.data
  let neg := cs.head? = some '-'
  let body := if cs.head? = some '-' || cs.head? = some '+' then cs.tail else cs
  if body.isEmpty then none
  else (digitsToNat body).map (fun n => if neg then -(n : Int) else (n : Int))

/-- Normalization of one raw row by `process_bea_data`:
`gdp_billions = to_numeric(DataValue.replace(',',''), errors='coerce') / 1000`,
`(county_name, state_code)` from the `GeoName` regex, `fips_code`
verbatim, and `year = pd.to_numeric(TimePeriod)` — the latter with the
default `errors='raise'`, so an unparsable `TimePeriod` raises
(modelled as `Except.error`). -/
def normalizeRow (r : RawRow) : Except Unit CountyRecord :=
  match parseTimePeriod r.TimePeriod with
  | none => .error ()
  | some y =>
    .ok
      { fips_code := r.GeoFips
      , county_name := (extractGeo r.GeoName).map Prod.fst
      , state_code := (extractGeo r.GeoName).map Prod.snd
      , gdp_billions := (parseDecimal (stripCommas r.DataValue)).map (fun v => v / 1000)
      , year := y }

/-- Column-wise normalization of a year's batch; `pd.to_numeric` on the
`TimePeriod` column raises for the whole frame as soon as any entry is
unparsable. -/
def normalizeRows : List RawRow → Except Unit (List CountyRecord)
  | [] => .ok []
  | r :: rest => do
    let c ← normalizeRow r
    let cs ← normalizeRows rest
    pure (c :: cs)

/-- `process_bea_data`: returns `None` for a `None` or empty input frame,
otherwise the normalized records (or the raised parse error). -/
def process_bea_data : Option (List RawRow) → Except Unit (Option (List CountyRecord))
  | none => .ok none
  | some rows =>
    if rows.isEmpty then .ok none
    else (normalizeRows rows).map some

/-- One row of the `states` table: the renamed columns of
`all_data.groupby(['state_code','year']).agg({'gdp_billions':['sum','count']})`. -/
structure StateRow where
  state_code : String
  year : Int
  total_gdp : ℚ
  num_counties : Nat
deriving DecidableEq, Repr

/-- The Aggregator (`groupby(['state_code','year']).agg(...)`): one output
row per distinct `(state_code, year)` key (pandas `groupby` drops rows
whose key contains a null, so null `state_code` rows form no group); for
each group, `sum` adds the non-null `gdp_billions` values (empty sum is 0)
and `count` counts the non-null `gdp_billions` entries.  (pandas sorts the
group keys; key order is irrelevant to the properties proved here, so the
first-occurrence order of `dedup` is used.) -/
def stateSummaries (rows : List CountyRecord) : List StateRow :=
  let keys := (rows.filterMap (fun r => r.state_code.map (fun s => (s, r.year)))).dedup
  keys.map (fun k =>
    let grp := rows.filter (fun r => decide (r.state_code = some k.1 ∧ r.year = k.2))
    { state_code := k.1
    , year := k.2
    , total_gdp := (grp.filterMap (fun r => r.gdp_billions)).sum
    , num_counties := (grp.filterMap (fun r => r.gdp_billions)).length })

/-- The projection `all_data[['fips_code','county_name','state_code','gdp_billions','year']]`
loaded into the `counties` table (no row is filtered out). -/
def county_data (rows : List CountyRecord) : List CountyRecord :=
  rows.map (fun r =>
    { fips_code := r.fips_code
    , county_name := r.county_name
    , state_code := r.state_code
    , gdp_billions := r.gdp_billions
    , year := r.year })

/-- The persistent SQLite store: each base table is `none` when absent,
otherwise its rows; the Boolean flags record whether the current table
schema carries the `PRIMARY KEY` / `FOREIGN KEY` declarations (pandas
`to_sql(..., if_exists='replace')` drops a table and recreates it from
the frame without constraints, so the flags track which schema the live
table actually has). -/
structure Store where
  statesRows : Option (List StateRow)
  statesPK : Bool
  countiesRows : Option (List CountyRecord)
  countiesPK : Bool
  countiesFK : Bool
deriving DecidableEq, Repr

/-- A store with no tables (fresh database file). -/
def freshStore : Store :=
  { statesRows := none, statesPK := false
  , countiesRows := none, countiesPK := false, countiesFK := false }

/-- The write steps of `create_database`, in program order.  Each
`to_sql` call runs in its own transaction (pandas wraps each call in
`with con:`, committing on success and rolling back only that call on
failure); the `CREATE TABLE IF NOT EXISTS` statements are DDL executed
directly.  `finalizeViews` stands for the view/index creation and the
final `conn.commit()`. -/
inductive DbStep where
  | createStatesTable
  | createCountiesTable
  | loadStates
  | loadCounties
  | finalizeViews
deriving DecidableEq, Repr

/-- `create_database` with fault injection: `failAt` names the first step
that raises (or `none` for a fault-free run).  Returns the store contents
as left on disk together with a success flag.  Step semantics, from the
source:
  * `CREATE TABLE IF NOT EXISTS` creates the constrained table only when
    absent, otherwise leaves the existing table (and its schema) alone;
  * `to_sql('states'|'counties', if_exists='replace')` drops the table
    and recreates it from the DataFrame without any PRIMARY KEY/FOREIGN
    KEY, then inserts all rows, committing on success; on failure its own
    transaction rolls back, but earlier committed steps stay. -/
def runCreateDatabase (failAt : Option DbStep) (all_data : List CountyRecord)
    (s : Store) : Store × Bool :=
  if failAt = some .createStatesTable then (s, false) else
  let s1 := if s.statesRows = none then
    { s with statesRows := some [], statesPK := true } else s
  if failAt = some .createCountiesTable then (s1, false) else
  let s2 := if s1.countiesRows = none then
    { s1 with countiesRows := some [], countiesPK := true, countiesFK := true } else s1
  if failAt = some .loadStates then (s2, false) else
  let s3 := { s2 with statesRows := some (stateSummaries all_data), statesPK := false }
  if failAt = some .loadCounties then (s3, false) else
  let s4 :=
    { s3 with
      countiesRows := some (county_data all_data)
      countiesPK := false
      countiesFK := false }
  if failAt = some .finalizeViews then (s4, false) else
  (s4, true)

/-- One row of the `county_growth` view. -/
structure GrowthRow where
  fips_code : String
  county_name : Option String
  state_code : Option String
  year : Int
  gdp_billions : Option ℚ
  annual_growth_rate : Option ℚ
deriving DecidableEq, Repr

/-- SQLite arithmetic for `c1.gdp_billions / c2.gdp_billions - 1`: NULL
if either operand is NULL, and NULL on division by zero (SQLite yields
NULL for `x / 0`). -/
def sqlDivGrowth : Option ℚ → Option ℚ → Option ℚ
  | some a, some b => if b = 0 then none else some (a / b - 1)
  | _, _ => none

/-- The `county_growth` view: a LEFT JOIN of `counties` with itself on
`c1.fips_code = c2.fips_code AND c1.year = c2.year + 1`; a `c1` row with
no join partner is emitted once with NULL growth, otherwise once per
partner with the computed rate. -/
def county_growth (cs : List CountyRecord) : List GrowthRow :=
  cs.flatMap (fun c1 =>
    let ms := cs.filter (fun c2 => decide (c2.fips_code = c1.fips_code ∧ c1.year = c2.year + 1))
    if ms.isEmpty then
      [{ fips_code := c1.fips_code, county_name := c1.county_name
       , state_code := c1.state_code, year := c1.year
       , gdp_billions := c1.gdp_billions, annual_growth_rate := none }]
    else
      ms.map (fun c2 =>
        { fips_code := c1.fips_code, county_name := c1.county_name
        , state_code := c1.state_code, year := c1.year
        , gdp_billions := c1.gdp_billions
        , annual_growth_rate := sqlDivGrowth c1.gdp_billions c2.gdp_billions }))

/-- One row of the `county_rankings_by_year` view. -/
structure RankRow where
  state_code : Option String
  county_name : Option String
  gdp_billions : Option ℚ
  year : Int
  rank_in_state : Nat
  rank_national : Nat
deriving DecidableEq, Repr

/-- Strict precedence in the `ORDER BY gdp_billions DESC` ranking order:
SQLite sorts NULLs as smaller than every numeric value, so in descending
order every non-null value ranks strictly above NULL, and among non-null
values the larger ranks strictly above. -/
def gdpAbove : Option ℚ → Option ℚ → Bool
  | some a, some b => decide (b < a)
  | some _, none => true
  | none, _ => false

/-- `RANK() OVER (PARTITION BY p ORDER BY gdp_billions DESC)` semantics:
a row's rank is one plus the number of partition rows ordered strictly
before it; peers (equal `gdp_billions`, NULLs being mutual peers) share a
rank. -/
def rankAgainst (part : List CountyRecord) (g : Option ℚ) : Nat :=
  1 + (part.filter (fun r => gdpAbove r.gdp_billions g)).length

/-- The `county_rankings_by_year` view: each county row with its rank
within its `(state_code, year)` partition and within its `year` partition
(SQL window partitioning places NULL `state_code` values in one
partition). -/
def county_rankings_by_year (cs : List CountyRecord) : List RankRow :=
  cs.map (fun c =>
    { state_code := c.state_code
    , county_name := c.county_name
    , gdp_billions := c.gdp_billions
    , year := c.year
    , rank_in_state :=
        rankAgainst (cs.filter (fun r => decide (r.state_code = c.state_code ∧ r.year = c.year)))
          c.gdp_billions
    , rank_national :=
        rankAgainst (cs.filter (fun r => decide (r.year = c.year))) c.gdp_billions })

/-- The outcome of one year's HTTP exchange as seen by
`fetch_county_gdp`: a transport-level exception (network error or the
`raise_for_status` HTTPError), a body on which `response.json()` raises,
or a parsed JSON body.  The nested `Option`s record which envelope keys
are present: `none` = no `"BEAAPI"` key, `some none` = no `"Results"`
key, `some (some none)` = no `"Data"` key, and
`some (some (some rows))` = the data array. -/
inductive ApiResponse where
  | transportError
  | malformedBody
  | body (beaapi : Option (Option (Option (List RawRow))))
deriving DecidableEq, Repr

/-- `fetch_county_gdp`: returns the data rows when the envelope has the
`BEAAPI → Results → Data` structure (even when the array is empty),
and `None` on a caught request exception or a missing envelope key. -/
def fetch_county_gdp : ApiResponse → Option (List RawRow)
  | .transportError => none
  | .malformedBody => none
  | .body none => none
  | .body (some none) => none
  | .body (some (some none)) => none
  | .body (some (some (some rows))) => some rows

/-- The fetch-and-process loop of `main`: per year, a `None` fetch is
skipped, a fetched frame is normalized (`process_bea_data` may raise,
aborting the run), a `None` processed frame is skipped, and the rest are
accumulated in order. -/
def collectFrames : List ApiResponse → Except Unit (List (List CountyRecord))
  | [] => .ok []
  | r :: rest =>
    match fetch_county_gdp r with
    | none => collectFrames rest
    | some rows =>
      match process_bea_data (some rows) with
      | .error e => .error e
      | .ok none => collectFrames rest
      | .ok (some recs) => (collectFrames rest).map (fun fs => recs :: fs)

/-- `main` over a prior on-disk store: if no year produced a frame, it
prints and returns without touching the store (`create_database` never
runs, flag `false`); otherwise it concatenates the frames (`pd.concat`)
and runs `create_database` (flag `true`). -/
def main_run (resps : List ApiResponse) (prior : Store) : Except Unit (Store × Bool) :=
  match collectFrames resps with
  | .error e => .error e
  | .ok frames =>
    if frames.isEmpty then .ok (prior, false)
    else .ok ((runCreateDatabase none frames.flatten prior).1, true)

/-- Single-year variant (`USCountyGDPcsvCode2022.py`): the state code from
`str.extract(r', (\w{2})$')` — the same end-anchored `", "` plus two word
characters condition as the historical pipeline, capturing only the code. -/
def extractStateCode (s : String) : Option String :=
  match s.data.reverse with
  | c1 :: c2 :: ' ' :: ',' :: _ =>
    if isWordChar c1 && isWordChar c2 then some (String.mk [c2, c1]) else none
  | _ => none

/-- Single-year variant: `str.replace(r' County, \w{2}$', '', regex=True)` —
drop the trailing `" County, XX"` when the label ends with it, otherwise
leave the label unchanged. -/
def stripCountySuffix (s : String) : String :=
  match s.data.reverse with
  | c1 :: c2 :: ' ' :: ',' :: 'y' :: 't' :: 'n' :: 'u' :: 'o' :: 'C' :: ' ' :: rest =>
    if isWordChar c1 && isWordChar c2 then String.mk rest.reverse else s
  | _ => s

/-- The hardcoded `state_names` mapping of the single-year variant
(`df['State'].map(state_names)`; an unknown code maps to null). -/
def stateNames : String → Option String
  | "AL" => some "Alabama" | "AK" => some "Alaska" | "AZ" => some "Arizona"
  | "AR" => some "Arkansas" | "CA" => some "California" | "CO" => some "Colorado"
  | "CT" => some "Connecticut" | "DE" => some "Delaware" | "FL" => some "Florida"
  | "GA" => some "Georgia" | "HI" => some "Hawaii" | "ID" => some "Idaho"
  | "IL" => some "Illinois" | "IN" => some "Indiana" | "IA" => some "Iowa"
  | "KS" => some "Kansas" | "KY" => some "Kentucky" | "LA" => some "Louisiana"
  | "ME" => some "Maine" | "MD" => some "Maryland" | "MA" => some "Massachusetts"
  | "MI" => some "Michigan" | "MN" => some "Minnesota" | "MS" => some "Mississippi"
  | "MO" => some "Missouri" | "MT" => some "Montana" | "NE" => some "Nebraska"
  | "NV" => some "Nevada" | "NH" => some "New Hampshire" | "NJ" => some "New Jersey"
  | "NM" => some "New Mexico" | "NY" => some "New York" | "NC" => some "North Carolina"
  | "ND" => some "North Dakota" | "OH" => some "Ohio" | "OK" => some "Oklahoma"
  | "OR" => some "Oregon" | "PA" => some "Pennsylvania" | "RI" => some "Rhode Island"
  | "SC" => some "South Carolina" | "SD" => some "South Dakota" | "TN" => some "Tennessee"
  | "TX" => some "Texas" | "UT" => some "Utah" | "VT" => some "Vermont"
  | "VA" => some "Virginia" | "WA" => some "Washington" | "WV" => some "West Virginia"
  | "WI" => some "Wisconsin" | "WY" => some "Wyoming" | "DC" => some "District of Columbia"
  | _ => none

/-- The `.round(3)` applied to the output `GDP_Billions` column: round to
the nearest multiple of 1/1000 (ties do not arise for the inputs
considered here, so the float round-half-even detail is immaterial). -/
def round3 (q : ℚ) : ℚ :=
  (round (q * 1000) : ℤ) / 1000

/-- One row of the single-year variant's output frame
(`output_df[['StateName','County','GDP_Billions','GeoFips']]` after
rounding). -/
structure CsvRow where
  StateName : Option String
  County : String
  GDP_Billions : Option ℚ
  GeoFips : String
deriving DecidableEq, Repr

/-- Per-row normalization of `get_county_gdp_by_state`:
`GDP = to_numeric(DataValue.replace(',',''), errors='coerce')`,
`State` from `r', (\w{2})$'`, `County` by stripping a `' County, XX'`
suffix, `GDP_Billions = GDP / 1_000_000` rounded to 3 decimals in the
output, `StateName` from the hardcoded map.  The output record carries no
year field: the year is only a request parameter. -/
def normalize_county_row (r : RawRow) : CsvRow :=
  let gdp := parseDecimal (stripCommas r.DataValue)
  { StateName := (extractStateCode r.GeoName).bind stateNames
  , County := stripCountySuffix r.GeoName
  , GDP_Billions := gdp.map (fun g => round3 (g / 1000000))
  , GeoFips := r.GeoFips }

/-! ### Concrete data used by counterexamples and witnesses -/

/-- Two records in the same `("AL", 2020)` group, one with a null GDP
(e.g. a `DataValue` of `"(NA)"`). -/
def demoNullGdpRows : List CountyRecord :=
  [ ⟨"01001", some "Autauga", some "AL", some 1, 2020⟩
  , ⟨"01003", some "Baldwin", some "AL", none, 2020⟩ ]

/-- A store holding the result of a previous successful run. -/
def priorStore : Store :=
  { statesRows := some [⟨"AL", 2019, 7, 2⟩]
  , statesPK := false
  , countiesRows := some [⟨"01003", some "Baldwin", some "AL", some 7, 2019⟩]
  , countiesPK := false
  , countiesFK := false }

/-- The new dataset of a later run. -/
def newRunData : List CountyRecord :=
  [⟨"01001", some "Autauga", some "AL", some 1, 2020⟩]

/-- Two records sharing the key `("01001", 2020)`. -/
def dupKeyRows : List CountyRecord :=
  [ ⟨"01001", some "Autauga", some "AL", some 1, 2020⟩
  , ⟨"01001", some "Autauga", some "AL", some 2, 2020⟩ ]

/-- A raw row that normalizes cleanly. -/
def demoGoodRaw : RawRow := ⟨"01001", "Autauga, AL", "1,234.5", "2020"⟩

/-- A raw row whose `TimePeriod` does not parse as a number. -/
def demoBadTimeRaw : RawRow := ⟨"01003", "Baldwin, AL", "10.0", "20x0"⟩

/-- Two years of data for one county, for growth-rate witnesses. -/
def demoGrowthRows : List CountyRecord :=
  [ ⟨"01001", some "Autauga", some "AL", some 2, 2020⟩
  , ⟨"01001", some "Autauga", some "AL", some 3, 2021⟩ ]

/-- Three counties of one state in one year, two of them tied on GDP. -/
def demoRankRows : List CountyRecord :=
  [ ⟨"01001", some "Autauga", some "AL", some 5, 2020⟩
  , ⟨"01003", some "Baldwin", some "AL", some 5, 2020⟩
  , ⟨"01005", some "Barbour", some "AL", some 1, 2020⟩ ]

/-- Responses in which no year yields data. -/
def demoNoDataResps : List ApiResponse :=
  [ .transportError, .malformedBody, .body none, .body (some none)
  , .body (some (some none)) ]

/-- A record whose geography label failed to decompose (null
`state_code`), together with a normal record. -/
def demoMixedRows : List CountyRecord :=
  [ ⟨"00998", none, none, some 4, 2020⟩
  , ⟨"01001", some "Autauga", some "AL", some 1, 2020⟩ ]

/-- Strictly-greater test on a nullable GDP against a non-null value, as
the claim states it: true exactly when the row's `gdp_billions` is some
`w` with `w > v`. -/
def valueGT : Option ℚ → ℚ → Bool
  | some w, v => decide (v < w)
  | none, _ => false

/-- A batch with one clean row, one row with an unparsable data value,
and one row whose geography label does not match the pattern — all with
parsable time periods. -/
def demoMalformedBatch : List RawRow :=
  [ ⟨"01001", "Autauga, AL", "1,234.5", "2020"⟩
  , ⟨"01003", "Baldwin, AL", "(NA)", "2020"⟩
  , ⟨"00998", "United States", "100", "2020"⟩ ]

/-! ### C1 -/

/-- C1 fails on the code: for the group `("AL", 2020)` built from
`demoNullGdpRows`, the Aggregator reports `num_counties = 1` — the count
of the non-null `gdp_billions` entries (pandas `count`) — while the group
contains 2 records, so the claimed "count of ALL records in the group,
including records whose gdp_billions is null" does not hold. -/
theorem c1_counterexample :
    (stateSummaries demoNullGdpRows).map
        (fun s => (s.state_code, s.year, s.num_counties)) = [("AL", 2020, 1)] ∧
      (demoNullGdpRows.filter
        (fun r => decide (r.state_code = some "AL" ∧ r.year = 2020))).length = 2 := by
  constructor <;> decide

theorem sum_filterMap_gdp (l : List CountyRecord) :
    (l.filterMap (fun r => r.gdp_billions)).sum
      = (l.map (fun r => r.gdp_billions.getD 0)).sum := by
  induction l with
  | nil => rfl
  | cons r t ih =>
    cases h : r.gdp_billions with
    | none => simp [List.filterMap_cons, h, ih]
    | some v => simp [List.filterMap_cons, h, ih]

theorem length_filterMap_gdp (l : List CountyRecord) :
    (l.filterMap (fun r => r.gdp_billions)).length
      = l.countP (fun r => r.gdp_billions.isSome) := by
  induction l with
  | nil => rfl
  | cons r t ih =>
    cases h : r.gdp_billions with
    | none => simp [List.filterMap_cons, h, ih, List.countP_cons]
    | some v => simp [List.filterMap_cons, h, ih, List.countP_cons]

/-- C1 (amended): for every `(state_code, year)` group produced by the
Aggregator, `total_gdp` is the sum of the non-null `gdp_billions` of the
group's records, and `num_counties` is the count of the group's records
whose `gdp_billions` is non-null (records with null GDP are excluded from
both the sum and the count). -/
theorem c1_theorem (rows : List CountyRecord) (s : StateRow)
    (hs : s ∈ stateSummaries rows) :
    s.total_gdp = ((rows.filter
        (fun r => decide (r.state_code = some s.state_code ∧ r.year = s.year))).map
          (fun r => r.gdp_billions.getD 0)).sum ∧
      s.num_counties = (rows.filter
        (fun r => decide (r.state_code = some s.state_code ∧ r.year = s.year))).countP
          (fun r => r.gdp_billions.isSome) := by
  unfold stateSummaries at hs
  rcases List.mem_map.mp hs with ⟨k, _, rfl⟩
  exact ⟨sum_filterMap_gdp _, length_filterMap_gdp _⟩

/-- C1 witness: the amended statement evaluated on `demoNullGdpRows` at
its single summary row. -/
theorem c1_witness :
    ((stateSummaries demoNullGdpRows).head (by decide)).total_gdp
        = ((demoNullGdpRows.filter
          (fun r => decide (r.state_code
              = some ((stateSummaries demoNullGdpRows).head (by decide)).state_code ∧
            r.year = ((stateSummaries demoNullGdpRows).head (by decide)).year))).map
              (fun r => r.gdp_billions.getD 0)).sum ∧
      ((stateSummaries demoNullGdpRows).head (by decide)).num_counties
        = (demoNullGdpRows.filter
          (fun r => decide (r.state_code
              = some ((stateSummaries demoNullGdpRows).head (by decide)).state_code ∧
            r.year = ((stateSummaries demoNullGdpRows).head (by decide)).year))).countP
              (fun r => r.gdp_billions.isSome) :=
  c1_theorem demoNullGdpRows _ (List.head_mem _)

/-! ### C2 -/

/-- C2 fails on the code: each `to_sql` call commits its own transaction,
so a run whose counties bulk-load raises after the states bulk-load has
committed leaves the `states` table replaced with the new summaries while
`counties` still holds the prior rows — neither the prior data intact nor
the full new dataset. -/
theorem c2_theorem :
    (runCreateDatabase (some .loadCounties) newRunData priorStore).2 = false ∧
      (runCreateDatabase (some .loadCounties) newRunData priorStore).1.statesRows
        = some (stateSummaries newRunData) ∧
      (runCreateDatabase (some .loadCounties) newRunData priorStore).1.countiesRows
        = priorStore.countiesRows ∧
      (runCreateDatabase (some .loadCounties) newRunData priorStore).1 ≠ priorStore ∧
      (runCreateDatabase (some .loadCounties) newRunData priorStore).1
        ≠ (runCreateDatabase none newRunData priorStore).1 := by
  refine ⟨rfl, rfl, rfl, fun h => ?_, fun h => ?_⟩
  · exact absurd (congrArg (fun st => (st.statesRows.getD []).map (fun s => s.year)) h)
      (by decide)
  · exact absurd (congrArg (fun st => (st.countiesRows.getD []).map (fun c => c.year)) h)
      (by decide)

/-! ### C3 -/

/-- C3 fails on the code: `pd.to_numeric(df['TimePeriod'])` is called with
the default `errors='raise'`, so one row with an unparsable time period
raises and discards the whole batch — including the well-formed row. -/
theorem c3_counterexample :
    process_bea_data (some [demoGoodRaw, demoBadTimeRaw]) = .error () := rfl

theorem normalizeRows_ok : ∀ (rows : List RawRow),
    (∀ r ∈ rows, parseTimePeriod r.TimePeriod ≠ none) →
    ∃ recs, normalizeRows rows = .ok recs ∧ recs.length = rows.length ∧
      ∀ r ∈ rows, ∃ rec ∈ recs,
        rec.fips_code = r.GeoFips ∧
        rec.county_name = (extractGeo r.GeoName).map Prod.fst ∧
        rec.state_code = (extractGeo r.GeoName).map Prod.snd ∧
        rec.gdp_billions = (parseDecimal (stripCommas r.DataValue)).map (fun v => v / 1000)
  | [], _ => ⟨[], rfl, rfl, by simp⟩
  | r :: t, h => by
    rcases Option.ne_none_iff_exists.mp (h r (List.mem_cons_self r t)) with ⟨y, hy⟩
    rcases normalizeRows_ok t (fun x hx => h x (List.mem_cons_of_mem r hx)) with
      ⟨recs, hrecs, hlen, hfields⟩
    have hrow : normalizeRow r = .ok
        { fips_code := r.GeoFips
        , county_name := (extractGeo r.GeoName).map Prod.fst
        , state_code := (extractGeo r.GeoName).map Prod.snd
        , gdp_billions := (parseDecimal (stripCommas r.DataValue)).map (fun v => v / 1000)
        , year := y } := by
      unfold normalizeRow
      rw [← hy]
    refine ⟨{ fips_code := r.GeoFips
            , county_name := (extractGeo r.GeoName).map Prod.fst
            , state_code := (extractGeo r.GeoName).map Prod.snd
            , gdp_billions := (parseDecimal (stripCommas r.DataValue)).map (fun v => v / 1000)
            , year := y } :: recs, ?_, by simp [hlen], ?_⟩
    · show (do
        let c ← normalizeRow r
        let cs ← normalizeRows t
        pure (c :: cs)) = _
      rw [hrow, hrecs]
      rfl
    · intro x hx
      rcases List.mem_cons.mp hx with rfl | hxt
      · exact ⟨_, List.mem_cons_self _ _, rfl, rfl, rfl, rfl⟩
      · rcases hfields x hxt with ⟨rec, hrec, hfs⟩
        exact ⟨rec, List.mem_cons_of_mem _ hrec, hfs⟩

/-- C3 (amended): a row whose data value cannot be parsed gets a null
`gdp_billions`, and a row whose geography label does not match the
pattern gets null `county_name`/`state_code`, in both cases without
dropping any row of the batch; but an unparsable time period is not
recovered per-row — `pd.to_numeric(df['TimePeriod'])` raises and the
whole batch is lost (the counterexample), so the "never raises" part
holds only when every row's time period parses. -/
theorem c3_theorem (rows : List RawRow) (hne : rows ≠ [])
    (hok : ∀ r ∈ rows, parseTimePeriod r.TimePeriod ≠ none) :
    ∃ recs, process_bea_data (some rows) = .ok (some recs) ∧
      recs.length = rows.length ∧
      ∀ r ∈ rows, ∃ rec ∈ recs,
        rec.fips_code = r.GeoFips ∧
        (parseDecimal (stripCommas r.DataValue) = none → rec.gdp_billions = none) ∧
        (extractGeo r.GeoName = none →
          rec.county_name = none ∧ rec.state_code = none) := by
  rcases normalizeRows_ok rows hok with ⟨recs, hrecs, hlen, hfields⟩
  refine ⟨recs, ?_, hlen, ?_⟩
  · show (if rows.isEmpty then Except.ok none else (normalizeRows rows).map some)
      = Except.ok (some recs)
    rw [if_neg (by simpa using hne), hrecs]
    rfl
  · intro r hr
    rcases hfields r hr with ⟨rec, hrec, hf, hcn, hsc, hgdp⟩
    refine ⟨rec, hrec, hf, fun hnone => ?_, fun hnone => ?_⟩
    · rw [hgdp, hnone]
      rfl
    · rw [hcn, hsc, hnone]
      exact ⟨rfl, rfl⟩

/-- C3 witness: the amended statement applied to a batch holding a clean
row, an unparsable-value row, and a non-matching-geography row. -/
theorem c3_witness :
    ∃ recs, process_bea_data (some demoMalformedBatch) = .ok (some recs) ∧
      recs.length = demoMalformedBatch.length ∧
      ∀ r ∈ demoMalformedBatch, ∃ rec ∈ recs,
        rec.fips_code = r.GeoFips ∧
        (parseDecimal (stripCommas r.DataValue) = none → rec.gdp_billions = none) ∧
        (extractGeo r.GeoName = none →
          rec.county_name = none ∧ rec.state_code = none) :=
  c3_theorem demoMalformedBatch (by decide) (by decide)

/-! ### C4 -/

/-- C4 fails on the code: `to_sql(..., if_exists='replace')` drops the
constrained tables and recreates them from the DataFrames, so after a
successful run neither PRIMARY KEY nor FOREIGN KEY declarations survive,
and a dataset with a duplicated `(fips_code, year)` is stored in full. -/
theorem c4_theorem :
    (runCreateDatabase none dupKeyRows freshStore).2 = true ∧
      (runCreateDatabase none dupKeyRows freshStore).1.countiesPK = false ∧
      (runCreateDatabase none dupKeyRows freshStore).1.countiesFK = false ∧
      (runCreateDatabase none dupKeyRows freshStore).1.statesPK = false ∧
      (runCreateDatabase none dupKeyRows freshStore).1.countiesRows
        = some (county_data dupKeyRows) ∧
      ¬ ((county_data dupKeyRows).map (fun r => (r.fips_code, r.year))).Nodup := by
  refine ⟨rfl, rfl, rfl, rfl, rfl, by decide⟩

/-! ### C5 -/

/-- C5 fails on the code at the given input: the suffix-stripper only
removes `" County, XX"`, which the label `"Autauga, AL"` lacks, so the
output county name is `"Autauga, AL"`, not `"Autauga"`. -/
theorem c5_counterexample :
    (normalize_county_row ⟨"01001", "Autauga, AL", "1,234.5", "2020"⟩).County
        = "Autauga, AL" ∧
      "Autauga, AL" ≠ "Autauga" := by
  exact ⟨rfl, by decide⟩

/-- C5 (amended): on the raw row
`{GeoFips:"01001", GeoName:"Autauga, AL", DataValue:"1,234.5"}` the
single-year variant produces `GeoFips "01001"`, `State "AL"` (mapped to
`StateName "Alabama"`), `County "Autauga, AL"` (the `' County, XX'`
pattern does not match this label), and a GDP of 1234.5/1,000,000 =
0.0012345 billions before output rounding, stored as 0.001 after the
3-decimal round; the output row carries no year field. -/
theorem c5_theorem :
    parseDecimal (stripCommas "1,234.5") = some (2469 / 2) ∧
      ((2469 : ℚ) / 2) / 1000000 = 12345 / 10 ^ 7 ∧
      round3 (((2469 : ℚ) / 2) / 1000000) = 1 / 1000 ∧
      normalize_county_row ⟨"01001", "Autauga, AL", "1,234.5", "2020"⟩
        = ⟨some "Alabama", "Autauga, AL", some (1 / 1000), "01001"⟩ := by
  have hp : parseDecimal (stripCommas "1,234.5")
      = some (1 * ((1234 : ℚ) + 5 / 10 ^ 1)) := rfl
  have hv : (1 * ((1234 : ℚ) + 5 / 10 ^ 1)) = 2469 / 2 := by norm_num
  have hr : round3 (((2469 : ℚ) / 2) / 1000000) = 1 / 1000 := by
    unfold round3
    norm_num [round_eq]
  refine ⟨hp.trans (congrArg some hv), by norm_num, hr, ?_⟩
  have hgdp : (normalize_county_row ⟨"01001", "Autauga, AL", "1,234.5", "2020"⟩).GDP_Billions
      = some (1 / 1000) := by
    show (parseDecimal (stripCommas "1,234.5")).map (fun g => round3 (g / 1000000))
        = some (1 / 1000)
    rw [hp, congrArg some hv]
    show some (round3 (((2469 : ℚ) / 2) / 1000000)) = some (1 / 1000)
    rw [hr]
  have hsn : (normalize_county_row ⟨"01001", "Autauga, AL", "1,234.5", "2020"⟩).StateName
      = some "Alabama" := rfl
  have hcy : (normalize_county_row ⟨"01001", "Autauga, AL", "1,234.5", "2020"⟩).County
      = "Autauga, AL" := rfl
  have hgf : (normalize_county_row ⟨"01001", "Autauga, AL", "1,234.5", "2020"⟩).GeoFips
      = "01001" := rfl
  calc normalize_county_row ⟨"01001", "Autauga, AL", "1,234.5", "2020"⟩
      = ⟨(normalize_county_row ⟨"01001", "Autauga, AL", "1,234.5", "2020"⟩).StateName,
         (normalize_county_row ⟨"01001", "Autauga, AL", "1,234.5", "2020"⟩).County,
         (normalize_county_row ⟨"01001", "Autauga, AL", "1,234.5", "2020"⟩).GDP_Billions,
         (normalize_county_row ⟨"01001", "Autauga, AL", "1,234.5", "2020"⟩).GeoFips⟩ := rfl
    _ = ⟨some "Alabama", "Autauga, AL", some (1 / 1000), "01001"⟩ := by
        rw [hsn, hcy, hgdp, hgf]

/-! ### C6 -/

/-- C6 fails on the code: an envelope whose `Data` array is present but
empty is returned as the (empty) tabular result, not as the `None`
"no data" signal — `fetch_county_gdp` checks only that the key chain
exists, and `len(df)` may be 0. -/
theorem c6_counterexample :
    fetch_county_gdp (.body (some (some (some [])))) = some [] ∧
      some ([] : List RawRow) ≠ none := by
  constructor <;> decide

/-- C6 (amended): the fetch returns the "no data" signal exactly on a
transport-level failure, a malformed body, or a missing envelope key
(`BEAAPI`, `Results`, or `Data`); whenever the `Data` key is present its
rows are returned verbatim, even when there are zero of them (the caller's
`process_bea_data` then maps the empty frame to `None`). -/
theorem c6_theorem (resp : ApiResponse) :
    (fetch_county_gdp resp = none ↔
        ¬ ∃ rows, resp = .body (some (some (some rows)))) ∧
      (∀ rows, resp = .body (some (some (some rows))) →
        fetch_county_gdp resp = some rows) := by
  constructor
  · constructor
    · intro h hex
      rcases hex with ⟨rows, rfl⟩
      simp [fetch_county_gdp] at h
    · intro hnot
      cases resp with
      | transportError => rfl
      | malformedBody => rfl
      | body b =>
        match b with
        | none => rfl
        | some none => rfl
        | some (some none) => rfl
        | some (some (some rows)) => exact absurd ⟨rows, rfl⟩ hnot
  · intro rows h
    subst h
    rfl

/-- C6 witness: the amended statement applied to a concrete envelope with
one data row. -/
theorem c6_witness :
    fetch_county_gdp (.body (some (some (some [demoGoodRaw])))) = some [demoGoodRaw] :=
  (c6_theorem (.body (some (some (some [demoGoodRaw]))))).2 [demoGoodRaw] rfl

/-! ### C7 -/

/-- C7: in the `county_growth` view (over a county table whose
`(fips_code, year)` keys are unique, the documented invariant), a row
whose `fips_code` has no record for the immediately preceding year has a
null `annual_growth_rate`; and whenever the preceding-year record exists
and carries a non-null, non-zero GDP `b`, the rate equals the current
GDP divided by `b`, minus 1 (null current GDP propagating to a null
rate, as SQL arithmetic does). -/
theorem c7_theorem (cs : List CountyRecord)
    (hnd : (cs.map (fun c => (c.fips_code, c.year))).Nodup)
    (g : GrowthRow) (hg : g ∈ county_growth cs) :
    ((¬ ∃ c2 ∈ cs, c2.fips_code = g.fips_code ∧ c2.year = g.year - 1) →
        g.annual_growth_rate = none) ∧
      (∀ c2 ∈ cs, c2.fips_code = g.fips_code → c2.year = g.year - 1 →
        ∀ b, c2.gdp_billions = some b → b ≠ 0 →
          g.annual_growth_rate = g.gdp_billions.map (fun a => a / b - 1)) := by
  simp only [county_growth] at hg
  rcases List.mem_flatMap.mp hg with ⟨c1, hc1, hmem⟩
  by_cases hE : (cs.filter
      (fun c2 => decide (c2.fips_code = c1.fips_code ∧ c1.year = c2.year + 1))).isEmpty
  · rw [if_pos hE] at hmem
    rcases List.mem_singleton.mp hmem with rfl
    refine ⟨fun _ => rfl, ?_⟩
    intro c2 hc2 hf hy b hb hbne
    dsimp only at hf hy
    exfalso
    have hmemf : c2 ∈ cs.filter
        (fun c2 => decide (c2.fips_code = c1.fips_code ∧ c1.year = c2.year + 1)) := by
      refine List.mem_filter.mpr ⟨hc2, ?_⟩
      simp only [decide_eq_true_eq]
      exact ⟨hf, by linarith⟩
    rw [List.isEmpty_iff.mp hE] at hmemf
    exact absurd hmemf (List.not_mem_nil c2)
  · rw [if_neg hE] at hmem
    rcases List.mem_map.mp hmem with ⟨c2x, hc2x, rfl⟩
    have hc2x' := List.mem_filter.mp hc2x
    have hkey := of_decide_eq_true hc2x'.2
    constructor
    · intro hnone
      refine absurd ⟨c2x, hc2x'.1, hkey.1, ?_⟩ hnone
      show c2x.year = c1.year - 1
      linarith [hkey.2]
    · intro c2 hc2 hf hy b hb hbne
      dsimp only at hf hy
      have hceq : c2 = c2x := by
        refine List.inj_on_of_nodup_map hnd hc2 hc2x'.1 ?_
        have h1 : c2.fips_code = c2x.fips_code := by rw [hf, hkey.1]
        have h2 : c2.year = c2x.year := by linarith [hy, hkey.2]
        rw [h1, h2]
      subst hceq
      show sqlDivGrowth c1.gdp_billions c2.gdp_billions
        = c1.gdp_billions.map (fun a => a / b - 1)
      cases hgd : c1.gdp_billions with
      | none => simp [sqlDivGrowth, hgd]
      | some a => simp [sqlDivGrowth, hgd, hb, hbne]

/-- C7 witness: the theorem applied to a two-year dataset at its
2021 view row, whose 2020 predecessor has GDP 2. -/
theorem c7_witness :
    ((county_growth demoGrowthRows).getLast (by decide)).annual_growth_rate
      = ((county_growth demoGrowthRows).getLast (by decide)).gdp_billions.map
          (fun a => a / 2 - 1) :=
  (c7_theorem demoGrowthRows (by decide) _ (List.getLast_mem _)).2
    ⟨"01001", some "Autauga", some "AL", some 2, 2020⟩ (by decide)
    rfl (by decide) 2 rfl (by norm_num)

/-! ### C8 -/

theorem gdpAbove_some_eq_valueGT (o : Option ℚ) (v : ℚ) :
    gdpAbove o (some v) = valueGT o v := by
  cases o <;> rfl

/-- C8: in `county_rankings_by_year`, two rows of the same
`(state_code, year)` partition with equal `gdp_billions` receive equal
`rank_in_state`, two rows of the same `year` partition with equal
`gdp_billions` receive equal `rank_national`, and every row with a
non-null GDP `v` has each rank equal to one plus the number of rows in
the respective partition whose `gdp_billions` is strictly greater than
`v` (`RANK()`'s standard tie policy). -/
theorem c8_theorem (cs : List CountyRecord) (x y : RankRow)
    (hx : x ∈ county_rankings_by_year cs) (hy : y ∈ county_rankings_by_year cs) :
    (x.state_code = y.state_code → x.year = y.year →
        x.gdp_billions = y.gdp_billions → x.rank_in_state = y.rank_in_state) ∧
      (x.year = y.year → x.gdp_billions = y.gdp_billions →
        x.rank_national = y.rank_national) ∧
      (∀ v, x.gdp_billions = some v →
        x.rank_in_state = 1 + ((cs.filter (fun r =>
            decide (r.state_code = x.state_code ∧ r.year = x.year))).filter
              (fun r => valueGT r.gdp_billions v)).length ∧
          x.rank_national = 1 + ((cs.filter (fun r =>
            decide (r.year = x.year))).filter
              (fun r => valueGT r.gdp_billions v)).length) := by
  rcases List.mem_map.mp hx with ⟨c, hc, rfl⟩
  rcases List.mem_map.mp hy with ⟨c2, hc2, rfl⟩
  refine ⟨?_, ?_, ?_⟩
  · intro h1 h2 h3
    dsimp only at h1 h2 h3 ⊢
    simp only [rankAgainst, h1, h2, h3]
  · intro h2 h3
    dsimp only at h2 h3 ⊢
    simp only [rankAgainst, h2, h3]
  · intro v hv
    dsimp only at hv ⊢
    rw [hv]
    simp only [rankAgainst, gdpAbove_some_eq_valueGT]
    exact ⟨by trivial, by trivial⟩

/-- C8 witness: on a state with two counties tied at GDP 5 and one at 1,
the tied rows share `rank_in_state`, and the first tied row's rank is one
plus the number of partition rows with strictly greater GDP. -/
theorem c8_witness :
    ((county_rankings_by_year demoRankRows).get ⟨0, by decide⟩).rank_in_state
        = ((county_rankings_by_year demoRankRows).get ⟨1, by decide⟩).rank_in_state ∧
      ((county_rankings_by_year demoRankRows).get ⟨0, by decide⟩).rank_in_state
        = 1 + ((demoRankRows.filter (fun r =>
            decide (r.state_code
                = ((county_rankings_by_year demoRankRows).get ⟨0, by decide⟩).state_code ∧
              r.year
                = ((county_rankings_by_year demoRankRows).get ⟨0, by decide⟩).year))).filter
              (fun r => valueGT r.gdp_billions 5)).length :=
  ⟨(c8_theorem demoRankRows _ _
      (List.get_mem _ 0 (by decide)) (List.get_mem _ 1 (by decide))).1 rfl rfl rfl,
    ((c8_theorem demoRankRows _ _
      (List.get_mem _ 0 (by decide)) (List.get_mem _ 1 (by decide))).2.2 5 rfl).1⟩

/-! ### C9 -/

theorem collectFrames_of_no_data : ∀ (resps : List ApiResponse),
    (∀ r ∈ resps, fetch_county_gdp r = none) → collectFrames resps = .ok []
  | [], _ => rfl
  | r :: t, h => by
    have hr := h r (List.mem_cons_self r t)
    simp only [collectFrames, hr]
    exact collectFrames_of_no_data t (fun x hx => h x (List.mem_cons_of_mem r hx))

/-- C9: when every year's fetch returns the "no data" signal, `main`
reports and returns before `create_database` is ever invoked, leaving the
persistent store exactly as it was. -/
theorem c9_theorem (resps : List ApiResponse) (prior : Store)
    (h : ∀ r ∈ resps, fetch_county_gdp r = none) :
    main_run resps prior = .ok (prior, false) := by
  simp only [main_run, collectFrames_of_no_data resps h]
  rfl

/-- C9 witness: a run over five responses covering every "no data" shape
leaves a fresh store untouched and never reaches `create_database`. -/
theorem c9_witness : main_run demoNoDataResps freshStore = .ok (freshStore, false) :=
  c9_theorem demoNoDataResps freshStore (by decide)

/-! ### C10 -/

theorem keys_filter_isSome (rows : List CountyRecord) :
    (rows.filter (fun x => x.state_code.isSome)).filterMap
        (fun r => r.state_code.map (fun s => (s, r.year)))
      = rows.filterMap (fun r => r.state_code.map (fun s => (s, r.year))) := by
  induction rows with
  | nil => rfl
  | cons r t ih =>
    cases h : r.state_code with
    | none => simp [List.filter_cons, List.filterMap_cons, h, ih]
    | some s => simp [List.filter_cons, List.filterMap_cons, h, ih]

theorem filter_filter_of_imp {α : Type} (p q : α → Bool)
    (h : ∀ a, p a = true → q a = true) :
    ∀ l : List α, (l.filter q).filter p = l.filter p
  | [] => rfl
  | a :: t => by
    by_cases hq : q a = true
    · by_cases hp : p a = true
      · simp [List.filter_cons, hq, hp, filter_filter_of_imp p q h t]
      · simp [List.filter_cons, hq, hp, filter_filter_of_imp p q h t]
    · have hp : ¬ p a = true := fun hpa => hq (h a hpa)
      simp [List.filter_cons, hq, hp, filter_filter_of_imp p q h t]

theorem group_filter_isSome (rows : List CountyRecord) (k1 : String) (k2 : Int) :
    (rows.filter (fun x => x.state_code.isSome)).filter
        (fun r => decide (r.state_code = some k1 ∧ r.year = k2))
      = rows.filter (fun r => decide (r.state_code = some k1 ∧ r.year = k2)) := by
  refine filter_filter_of_imp _ _ (fun a ha => ?_) rows
  rcases of_decide_eq_true ha with ⟨h1, _⟩
  rw [h1]
  rfl

theorem stateSummaries_filter_isSome (rows : List CountyRecord) :
    stateSummaries (rows.filter (fun x => x.state_code.isSome)) = stateSummaries rows := by
  simp only [stateSummaries]
  rw [keys_filter_isSome]
  apply List.map_congr_left
  intro k _
  rw [group_filter_isSome]

/-- C10: a normalized record whose geography label failed to decompose
(null `state_code`) is still loaded into the `counties` table, but
belongs to no Aggregator group: the state summaries are unchanged if all
such records are removed (they contribute to no group's `total_gdp` or
`num_counties`), and no `states` row carries its (null) state code, so
the record has no parent state-summary row. -/
theorem c10_theorem (rows : List CountyRecord) (r : CountyRecord)
    (hr : r ∈ rows) (hnull : r.state_code = none) :
    r ∈ county_data rows ∧
      stateSummaries rows = stateSummaries (rows.filter (fun x => x.state_code.isSome)) ∧
      ∀ s ∈ stateSummaries rows, some s.state_code ≠ r.state_code := by
  refine ⟨?_, (stateSummaries_filter_isSome rows).symm, ?_⟩
  · have hid : county_data rows = rows := List.map_id'' (fun x => rfl) rows
    rw [hid]
    exact hr
  · intro s _ hcon
    rw [hnull] at hcon
    exact Option.noConfusion hcon

/-- C10 witness: the record with FIPS "00998" and a null state code is
loaded but aggregated nowhere. -/
theorem c10_witness :
    (⟨"00998", none, none, some 4, 2020⟩ : CountyRecord) ∈ county_data demoMixedRows ∧
      stateSummaries demoMixedRows
        = stateSummaries (demoMixedRows.filter (fun x => x.state_code.isSome)) ∧
      ∀ s ∈ stateSummaries demoMixedRows,
        some s.state_code
          ≠ (⟨"00998", none, none, some 4, 2020⟩ : CountyRecord).state_code :=
  c10_theorem demoMixedRows ⟨"00998", none, none, some 4, 2020⟩ (by decide) rfl

end CountyGDP
